import Mathlib

/-!
Verification of the bazel-watcher watch-loop engine (ibazel main file).

The Go source is shallowly embedded: the mutable fields of the IBazel struct
that the claims talk about become explicit state records, the channel selects
of the state machine become an explicit input type, and the external
collaborators (bazel query client, os.Stat, fsnotify watcher Add results,
the workspace finder, subprocess handles) become oracle fields of environment
records. Side effects visible to the spec (lifecycle listener fan-out,
watcher Add and Remove calls, self-signaling) are returned as data.
-/

namespace Ibazel

/-! ## String and path helpers (models of strings and path/filepath stdlib calls) -/

/-- Model of strings.HasPrefix restricted to character lists. -/
def leadsWith : List Char → List Char → Bool
  | [], _ => true
  | _ :: _, [] => false
  | p :: ps, c :: cs => p == c && leadsWith ps cs

/-- Model of strings.HasPrefix on strings. -/
def strStarts (s pat : String) : Bool :=
  leadsWith pat.toList s.toList

/-- Model of filepath.Split: splits immediately after the final separator,
returning (directory including trailing slash, file name). -/
def filepathSplit (p : String) : String × String :=
  let rev := p.toList.reverse
  let fileRev := rev.takeWhile (fun c => c != '/')
  let dirRev := rev.drop fileRev.length
  (String.mk dirRev.reverse, String.mk fileRev.reverse)

/-- Model of filepath.Join on two components (the path cleaning that the Go
standard library performs on already-clean inputs is the identity and is not
modelled). -/
def filepathJoin (a b : String) : String :=
  a ++ "/" ++ b

/-- Model of strings.TrimPrefix(label, "//"). -/
def trimSlashSlash (s : String) : String :=
  match s.toList with
  | '/' :: '/' :: rest => String.mk rest
  | _ => s

/-- Model of strings.Replace(s, ":", string(filepath.Separator), 1): replaces
the first colon with the path separator. -/
def replaceFirstColon (s : String) : String :=
  String.mk (go s.toList)
where
  go : List Char → List Char
  | [] => []
  | c :: cs => if c == ':' then '/' :: cs else c :: go cs

/-! ## fsnotify event model -/

/-- fsnotify op bits (Create, Write, Remove, Rename, Chmod). -/
def opCreate : Nat := 1
def opWrite : Nat := 2
def opRemove : Nat := 4
def opRename : Nat := 8
def opChmod : Nat := 16

/-- const modifyingEvents = fsnotify.Write | fsnotify.Create | fsnotify.Rename | fsnotify.Remove -/
def modifyingEvents : Nat := opWrite ||| opCreate ||| opRename ||| opRemove

/-- The test e.Op&modifyingEvents != 0 applied to an op bitmask. -/
def hasModifyingOp (op : Nat) : Bool :=
  (op &&& modifyingEvents) != 0

/-- An fsnotify event: a name (path of the changed entry) and an op bitmask. -/
structure FsEvent where
  name : String
  op : Nat
deriving DecidableEq

/-! ## Query result model (blaze_query protos, as far as the engine reads them) -/

inductive TargetType
  | SOURCE_FILE
  | RULE
  | OTHER
deriving DecidableEq

/-- One entry of a bazel Query result: its type and (for source files) the
label target.SourceFile.Name. -/
structure QTarget where
  type : TargetType
  name : String
deriving DecidableEq

inductive AttrType
  | STRING_LIST
  | OTHER
deriving DecidableEq

/-- One rule attribute: *attr.Name, *attr.Type and attr.StringListValue. -/
structure Attr where
  Name : String
  type : AttrType
  StringListValue : List String
deriving DecidableEq

/-- blaze_query.Rule, as far as setupRun reads it: the Attribute list. -/
structure Rule where
  Attribute : List Attr
deriving DecidableEq

/-- One entry of a CQuery result: target.Target.Type and target.Target.Rule. -/
structure CQTarget where
  type : TargetType
  rule : Rule
deriving DecidableEq

/-! ## queryForSourceFiles -/

/-- Environment of one watchFiles / queryForSourceFiles call: what the
external collaborators answer. -/
structure WatchEnv where
  queryRes : List QTarget
  queryErr : Bool
  workspacePath : String
  wsErr : Bool
  existing : List String
  addFails : List String
deriving DecidableEq

/-- The body of the per-target switch in queryForSourceFiles: keep a
SOURCE_FILE whose label starts with neither "@" nor "//external", rewritten
to a workspace path; discard everything else (the default branch only logs). -/
def sourceLabelPath (workspacePath : String) (target : QTarget) : Option String :=
  match target.type with
  | TargetType.SOURCE_FILE =>
    if strStarts target.name "@" then none
    else if strStarts target.name "//external" then none
    else some (filepathJoin workspacePath (replaceFirstColon (trimSlashSlash target.name)))
  | _ => none

structure QfsOut where
  toWatch : List String
  err : Bool
  termSignaled : Bool
deriving DecidableEq

/-- IBazel.queryForSourceFiles. A failing Query (or FindWorkspace) is only
logged, self-signals SIGTERM and sleeps; the err variable holding the Query
error is then overwritten by the FindWorkspace call, and the function ends
with `return toWatch, nil` — so the returned error is unconditionally nil. -/
def queryForSourceFiles (env : WatchEnv) : QfsOut :=
  let toWatch := env.queryRes.filterMap (sourceLabelPath env.workspacePath)
  ⟨toWatch, false, env.queryErr || env.wsErr⟩

/-! ## watcherAdd / watcherRemove / watchFiles -/

/-- The maps that watchFiles allocates and watcherAdd fills: filesFound,
filesWatched, uniqueDirectories, plus the directories actually passed to
watcher.Add successfully. -/
structure AddAcc where
  filesFound : List String
  filesWatched : List String
  uniqueDirectories : List String
  addedDirs : List String
deriving DecidableEq

/-- IBazel.watcherAdd: for each file, record it as found when os.Stat does
not report non-existence; watch its parent directory unless already watched;
a failing watcher.Add is logged (suppressed for .../tools/defaults/BUILD)
and the file skipped. The Bool result is the empty-result warning
(len(filesFound) == 0). -/
def watcherAdd (existing addFails : List String) (acc : AddAcc) (toWatch : List String) :
    AddAcc × Bool :=
  let acc := toWatch.foldl (fun acc file =>
    let acc := if existing.contains file then
        { acc with filesFound := acc.filesFound ++ [file] } else acc
    let parentDirectory := (filepathSplit file).1
    if acc.uniqueDirectories.contains parentDirectory then
      { acc with filesWatched := acc.filesWatched ++ [file] }
    else if addFails.contains parentDirectory then
      acc
    else
      { acc with filesWatched := acc.filesWatched ++ [file],
                 uniqueDirectories := acc.uniqueDirectories ++ [parentDirectory],
                 addedDirs := acc.addedDirs ++ [parentDirectory] }) acc
  (acc, acc.filesFound.isEmpty)

/-- IBazel.watcherRemove: for every previously watched file whose parent
directory is not a key of dirWatched, call watcher.Remove on the parent;
then replace filesWatched[watcher] with the newly computed set. Returns
(directories passed to Remove, the new watch set). -/
def watcherRemove (dirWatched : List String) (prevWatched : List String)
    (newWatched : List String) : List String × List String :=
  (prevWatched.filterMap (fun file =>
    let parentDirectory := (filepathSplit file).1
    if dirWatched.contains parentDirectory then none else some parentDirectory),
   newWatched)

structure WatchOut where
  filesWatched : List String
  addedDirs : List String
  removedDirs : List String
  emptyWarning : Bool
  termSignaled : Bool
deriving DecidableEq

/-- IBazel.watchFiles: query, then reconcile. The guard on the query error
(`If the query fails, just keep watching the same files as before`) is
mirrored although queryForSourceFiles never returns a non-nil error. -/
def watchFiles (env : WatchEnv) (prevWatched : List String) : WatchOut :=
  let q := queryForSourceFiles env
  if q.err then
    ⟨prevWatched, [], [], false, q.termSignaled⟩
  else
    let ar := watcherAdd env.existing env.addFails ⟨[], [], [], []⟩ q.toWatch
    let rr := watcherRemove ar.1.uniqueDirectories prevWatched ar.1.filesWatched
    ⟨rr.2, ar.1.addedDirs, rr.1, ar.2, q.termSignaled⟩

/-! ## Multi-target helpers: contains, containsIdx, deleteIdx, dirWatchedByTarget -/

/-- The contains helper of the source file. -/
def contains (l : List String) (e : String) : Bool :=
  match l with
  | [] => false
  | i :: rest => if i == e then true else contains rest e

/-- containsIdx: index of e in l, -1 when absent. -/
def containsIdx (l : List String) (e : String) : Int :=
  match l.findIdx? (fun x => x == e) with
  | some idx => Int.ofNat idx
  | none => -1

/-- deleteIdx: copy the last element over index idx, erase the last slot and
truncate by one. -/
def deleteIdx (a : List String) (idx : Nat) : List String :=
  ((a.set idx (a.getLastD "")).dropLast)

/-- Association list lookup with a default, modelling a Go map read. -/
def lookupD (m : List (String × List String)) (k : String) (d : List String) : List String :=
  match m.find? (fun p => p.1 == k) with
  | some p => p.2
  | none => d

/-- Association list update, modelling a Go map write. -/
def setAssoc (m : List (String × List String)) (k : String) (v : List String) :
    List (String × List String) :=
  if m.any (fun p => p.1 == k) then m.map (fun p => if p.1 == k then (k, v) else p)
  else m ++ [(k, v)]

/-- One step of the pruning loop of dirWatchedByTarget: remove one occurrence
of target t via containsIdx / deleteIdx. -/
def pruneOne (l : List String) (t : String) : List String :=
  let idx := containsIdx l t
  if idx == -1 then l else deleteIdx l idx.toNat

/-- dirWatchedByTarget: first prune every (dir, target) pair for the current
targets, dropping directories whose list becomes empty (the emptiness check
runs inside the target loop, so it never fires when targets is empty); then
append each target to the entry of each parent directory of its files. -/
def dirWatchedByTarget (toWatchByTarget : List (String × List String))
    (targets : List String) (storage : List (String × List String)) :
    List (String × List String) :=
  let storage := storage.filterMap (fun ent =>
    let lst := targets.foldl pruneOne ent.2
    if targets.isEmpty then some (ent.1, lst)
    else if lst.isEmpty then none else some (ent.1, lst))
  targets.foldl (fun st t =>
    (lookupD toWatchByTarget t []).foldl (fun st file =>
      let parentDirectory := (filepathSplit file).1
      if containsIdx (lookupD st parentDirectory []) t == -1 then
        setAssoc st parentDirectory (lookupD st parentDirectory [] ++ [t])
      else st) st) storage

structure ManyOut where
  watched : List String
  dirStorage : List (String × List String)
  addedDirs : List String
  removedDirs : List String
deriving DecidableEq

/-- IBazel.watchManyFiles: per-target queries (the early return on a query
error is mirrored although the returned error is always nil), dir-storage
maintenance, accumulated watcherAdd over the targets, one watcherRemove
keyed by the dir storage. The per-call empty warnings are log-only. -/
def watchManyFiles (qres : String → List QTarget) (ws : String)
    (existing addFails : List String) (targets : List String)
    (prevWatched : List String) (storage : List (String × List String)) : ManyOut :=
  let pairs := targets.map (fun t => (t, queryForSourceFiles ⟨qres t, false, ws, false, existing, addFails⟩))
  if pairs.any (fun p => p.2.err) then
    ⟨prevWatched, storage, [], []⟩
  else
    let toWatchByTarget := pairs.map (fun p => (p.1, p.2.toWatch))
    let storage := dirWatchedByTarget toWatchByTarget targets storage
    let acc := targets.foldl (fun acc t =>
      (watcherAdd existing addFails acc (lookupD toWatchByTarget t [])).1) (⟨[], [], [], []⟩ : AddAcc)
    let rr := watcherRemove (storage.map Prod.fst) prevWatched acc.filesWatched
    ⟨rr.2, storage, acc.addedDirs, rr.1⟩

/-! ## The state machine -/

/-- The six engine states of the source. -/
inductive State
  | DEBOUNCE_QUERY
  | QUERY
  | WAIT
  | DEBOUNCE_RUN
  | RUN
  | QUIT
deriving DecidableEq

/-- Lifecycle fan-out calls observed by the listeners (the output buffer
argument of afterCommand is not carried; success = (error == nil) is). -/
inductive Emit
  | changeDetected (targets : List String) (changeType : String) (change : String)
  | beforeCommand (targets : List String) (command : String)
  | afterCommand (targets : List String) (command : String) (success : Bool)
deriving DecidableEq

def isBeforeCommandE : Emit → Bool
  | Emit.beforeCommand _ _ => true
  | _ => false

def isAfterCommandE : Emit → Bool
  | Emit.afterCommand _ _ _ => true
  | _ => false

/-- What the multiplexed select of one iteration received: an event on the
source channel, an event on the build channel, or the debounce timer firing. -/
inductive IterInput
  | srcEvent (e : FsEvent)
  | bldEvent (e : FsEvent)
  | timeout
deriving DecidableEq

/-- i.debounceDuration default set in New(): 100 * time.Millisecond. -/
def debounceDurationDefaultMs : Nat := 100

/-- Single-target engine state: i.state and filesWatched for the two watchers. -/
structure SEngine where
  state : State
  srcWatched : List String
  bldWatched : List String
deriving DecidableEq

/-- Environment of one single-target iteration: the two reconciliation
environments for the QUERY phase and the success of commandToRun for RUN. -/
structure IterEnv where
  bld : WatchEnv
  src : WatchEnv
  cmdErr : Bool

/-- IBazel.iteration. States that wait on channels consume the select input;
QUERY and RUN are synchronous. Events on a channel that the select of the
current state does not subscribe to leave everything as is (the Go select
would simply not receive them in that state). -/
def iteration (env : IterEnv) (command : String) (targets : List String)
    (eng : SEngine) (inp : IterInput) : SEngine × List Emit :=
  match eng.state with
  | State.WAIT =>
    match inp with
    | IterInput.srcEvent e =>
      if eng.srcWatched.contains e.name && hasModifyingOp e.op then
        ({ eng with state := State.DEBOUNCE_RUN }, [Emit.changeDetected targets "source" e.name])
      else (eng, [])
    | IterInput.bldEvent e =>
      if eng.bldWatched.contains e.name && hasModifyingOp e.op then
        ({ eng with state := State.DEBOUNCE_QUERY }, [Emit.changeDetected targets "graph" e.name])
      else (eng, [])
    | IterInput.timeout => (eng, [])
  | State.DEBOUNCE_QUERY =>
    match inp with
    | IterInput.bldEvent e =>
      let emits := if eng.bldWatched.contains e.name && hasModifyingOp e.op then
          [Emit.changeDetected targets "graph" e.name] else []
      ({ eng with state := State.DEBOUNCE_QUERY }, emits)
    | IterInput.timeout => ({ eng with state := State.QUERY }, [])
    | IterInput.srcEvent _ => (eng, [])
  | State.QUERY =>
    let bw := watchFiles env.bld eng.bldWatched
    let sw := watchFiles env.src eng.srcWatched
    ({ eng with state := State.RUN, srcWatched := sw.filesWatched, bldWatched := bw.filesWatched }, [])
  | State.DEBOUNCE_RUN =>
    match inp with
    | IterInput.srcEvent e =>
      let emits := if eng.srcWatched.contains e.name && hasModifyingOp e.op then
          [Emit.changeDetected targets "source" e.name] else []
      ({ eng with state := State.DEBOUNCE_RUN }, emits)
    | IterInput.timeout => ({ eng with state := State.RUN }, [])
    | IterInput.bldEvent _ => (eng, [])
  | State.RUN =>
    ({ eng with state := State.WAIT },
     [Emit.beforeCommand targets command, Emit.afterCommand targets command (!env.cmdErr)])
  | State.QUIT => (eng, [])

/-! ## Run mode: queryRule, setupRun, runMultiple -/

/-- IBazel.queryRule on the Results list that accompanies the CQuery answer:
the first RULE-typed result is returned with a nil error; otherwise the rule
is nil and the error is errors.New("No information available"). The Bool is
(error != nil). -/
def queryRule (results : List CQTarget) : Option Rule × Bool :=
  match results.find? (fun t => t.type == TargetType.RULE) with
  | some t => (some t.rule, false)
  | none => (none, true)

/-- IBazel.setupRun, reduced to its control flow on the rule. A non-nil
queryRule error is only logged; targetDecider then receives the rule as is,
and the for-range over rule.Attribute dereferences it with no guard: on a
nil rule this is a nil-pointer panic, modelled as Except.error. On a
non-nil rule the result is commandNotify (the tags attribute contains
"ibazel_notify_changes"), selecting the notify command over the default
command. The i.args re-slicing only shapes the arguments of the handle. -/
def setupRun (rule : Option Rule) (ruleErr : Bool) : Except Unit Bool :=
  let _ := ruleErr
  match rule with
  | none => Except.error ()
  | some r =>
    let commandNotify := r.Attribute.foldl (fun acc attr =>
      if attr.Name == "tags" && attr.type == AttrType.STRING_LIST &&
          contains attr.StringListValue "ibazel_notify_changes" then true else acc) false
    Except.ok commandNotify

/-- Environment of the multi-target loop: per-target query answers for the
build and source queries, the workspace and filesystem oracles, the result
of the build step, per-target CQuery answers, per-target Start errors. -/
structure MEnv where
  bldRes : String → List QTarget
  srcRes : String → List QTarget
  workspacePath : String
  existing : List String
  addFails : List String
  buildErr : Bool
  cquery : String → List CQTarget
  startErr : String → Bool

/-- The first-pass loop of runMultiple: per target, setupRun (a nil rule
panics), then Start; the output buffer is appended before the error check,
so a failing Start returns the partial buffers collected so far. Buffers
are opaque. Log files opened per target are side effects not modelled. -/
def startCmds (env : MEnv) : List String → Except Unit (List Unit × Bool)
  | [] => Except.ok ([], false)
  | t :: ts =>
    match setupRun (queryRule (env.cquery t)).1 (queryRule (env.cquery t)).2 with
    | Except.error e => Except.error e
    | Except.ok _ =>
      if env.startErr t then Except.ok ([()], true)
      else
        match startCmds env ts with
        | Except.error e => Except.error e
        | Except.ok (bufs, errFlag) => Except.ok (() :: bufs, errFlag)

structure RunOut where
  buffers : List Unit
  errOut : Bool
  emits : List Emit
  cmdsPresent : Bool
  firstBuildPassed : Bool
deriving DecidableEq

/-- IBazel.runMultiple: build all targets and fan out an internal
afterCommand(targets, "build", ...) regardless of the build outcome; on
build failure return the build buffer with the error; otherwise mark
firstBuildPassed, start every command on the first pass (creating the cmds
map) or notify all of them on later passes. -/
def runMultiple (env : MEnv) (cmdsPresent firstBuildPassed : Bool)
    (targets : List String) : Except Unit RunOut :=
  let buildEmit := Emit.afterCommand targets "build" (!env.buildErr)
  if env.buildErr then
    Except.ok ⟨[()], true, [buildEmit], cmdsPresent, firstBuildPassed⟩
  else if !cmdsPresent then
    match startCmds env targets with
    | Except.error e => Except.error e
    | Except.ok (bufs, errFlag) => Except.ok ⟨bufs, errFlag, [buildEmit], true, true⟩
  else
    Except.ok ⟨targets.map (fun _ => ()), false, [buildEmit], true, true⟩

/-- Multi-target engine state: i.state, the two watch sets, prevDir,
firstBuildPassed, whether i.cmds has been created, and the two
target-directory maps. -/
structure MEngine where
  state : State
  srcWatched : List String
  bldWatched : List String
  prevDir : String
  firstBuildPassed : Bool
  cmdsPresent : Bool
  srcDirToWatch : List (String × List String)
  bldDirToWatch : List (String × List String)
deriving DecidableEq

/-- Outcome of one multi-target iteration: the new engine state, the
lifecycle emissions, the targets handed to the re-query (QUERY state only)
and the output buffers of the RUN state. -/
structure MOut where
  eng : MEngine
  emits : List Emit
  queried : List String
  buffers : List Unit
deriving DecidableEq

/-- The toQuery computation at the top of the multi-target QUERY state,
kept faithful to the source: the branch on prevDir declares a fresh,
shadowed toQuery with := and discards it when the branch ends, so the outer
toQuery is still empty and the fallback to all targets always fires. -/
def toQueryOf (prevDir : String) (bldDirToWatch : List (String × List String))
    (targets : List String) : List String :=
  let toQuery : List String := []
  let _shadowed := if prevDir != "" then lookupD bldDirToWatch prevDir [] else []
  if toQuery.length == 0 then targets else toQuery

/-- The torun computation of the multi-target RUN state. -/
def multiTorun (eng : MEngine) (targets : List String) : List String :=
  if eng.prevDir != "" && eng.firstBuildPassed then
    lookupD eng.srcDirToWatch eng.prevDir []
  else targets

/-- IBazel.iterationMultiple. Identical state graph to iteration, plus:
debounce states record the parent directory of every received event in
prevDir (outside the watched-and-modifying guard); QUERY picks toQuery via
toQueryOf, reconciles both watchers through watchManyFiles and clears
prevDir; RUN calls BeforeRebuild on every handle (internal to the commands,
not a lifecycle emission), fans out one beforeCommand, runs runMultiple
(whose nil-rule panic propagates as Except.error), then one afterCommand per
output buffer, and clears prevDir. -/
def iterationMultiple (env : MEnv) (command : String) (targets : List String)
    (eng : MEngine) (inp : IterInput) : Except Unit MOut :=
  match eng.state with
  | State.WAIT =>
    match inp with
    | IterInput.srcEvent e =>
      if eng.srcWatched.contains e.name && hasModifyingOp e.op then
        Except.ok ⟨{ eng with state := State.DEBOUNCE_RUN },
          [Emit.changeDetected targets "source" e.name], [], []⟩
      else Except.ok ⟨eng, [], [], []⟩
    | IterInput.bldEvent e =>
      if eng.bldWatched.contains e.name && hasModifyingOp e.op then
        Except.ok ⟨{ eng with state := State.DEBOUNCE_QUERY },
          [Emit.changeDetected targets "graph" e.name], [], []⟩
      else Except.ok ⟨eng, [], [], []⟩
    | IterInput.timeout => Except.ok ⟨eng, [], [], []⟩
  | State.DEBOUNCE_QUERY =>
    match inp with
    | IterInput.bldEvent e =>
      let emits := if eng.bldWatched.contains e.name && hasModifyingOp e.op then
          [Emit.changeDetected targets "graph" e.name] else []
      Except.ok ⟨{ eng with prevDir := (filepathSplit e.name).1, state := State.DEBOUNCE_QUERY },
        emits, [], []⟩
    | IterInput.timeout => Except.ok ⟨{ eng with state := State.QUERY }, [], [], []⟩
    | IterInput.srcEvent _ => Except.ok ⟨eng, [], [], []⟩
  | State.QUERY =>
    let toQuery := toQueryOf eng.prevDir eng.bldDirToWatch targets
    let bw := watchManyFiles env.bldRes env.workspacePath env.existing env.addFails
      toQuery eng.bldWatched eng.bldDirToWatch
    let sw := watchManyFiles env.srcRes env.workspacePath env.existing env.addFails
      toQuery eng.srcWatched eng.srcDirToWatch
    let eng := { eng with
      state := State.RUN
      prevDir := ""
      srcWatched := sw.watched
      srcDirToWatch := sw.dirStorage
      bldWatched := bw.watched
      bldDirToWatch := bw.dirStorage }
    Except.ok ⟨eng, [], toQuery, []⟩
  | State.DEBOUNCE_RUN =>
    match inp with
    | IterInput.srcEvent e =>
      let emits := if eng.srcWatched.contains e.name && hasModifyingOp e.op then
          [Emit.changeDetected targets "source" e.name] else []
      Except.ok ⟨{ eng with prevDir := (filepathSplit e.name).1, state := State.DEBOUNCE_RUN },
        emits, [], []⟩
    | IterInput.timeout => Except.ok ⟨{ eng with state := State.RUN }, [], [], []⟩
    | IterInput.bldEvent _ => Except.ok ⟨eng, [], [], []⟩
  | State.RUN =>
    let torun := multiTorun eng targets
    match runMultiple env eng.cmdsPresent eng.firstBuildPassed torun with
    | Except.error e => Except.error e
    | Except.ok r =>
      let eng := { eng with
        state := State.WAIT
        prevDir := ""
        cmdsPresent := r.cmdsPresent
        firstBuildPassed := r.firstBuildPassed }
      Except.ok ⟨eng,
        Emit.beforeCommand torun command ::
          r.emits ++ r.buffers.map (fun _ => Emit.afterCommand torun command (!r.errOut)),
        [], r.buffers⟩
  | State.QUIT => Except.ok ⟨eng, [], [], []⟩

/-! ## Signal handler -/

inductive Sig
  | SIGINT
  | SIGTERM
  | SIGHUP
deriving DecidableEq

structure SigOut where
  terminated : List String
  exit : Option Nat
  interruptCount : Nat
deriving DecidableEq

/-- The handles of the cmds map whose subprocess is running (those the
signal handler terminates). -/
def runningCmds (cmds : List (String × Bool)) : List String :=
  (cmds.filter (fun c => c.2)).map (fun c => c.1)

/-- IBazel.handleSignals on one received signal. cmds lists the multi-target
handles with their IsSubprocessRunning state; cmd is the single-target
handle (none when nil) with its running state; "cmd" in the terminated list
denotes the single-target handle. osExit is modelled as terminating, so for
SIGINT with a nil or idle cmd the increment after the switch is never
reached, and SIGTERM / SIGHUP return before the increment. -/
def handleSignals (sig : Sig) (cmds : List (String × Bool)) (cmd : Option Bool)
    (interruptCount : Nat) : SigOut :=
  match sig with
  | Sig.SIGINT =>
    if cmd = some true then
      let c := interruptCount + 1
      ⟨runningCmds cmds ++ ["cmd"], if c > 2 then some 3 else none, c⟩
    else
      ⟨runningCmds cmds, some 3, interruptCount⟩
  | Sig.SIGTERM =>
    ⟨runningCmds cmds ++ (if cmd = some true then ["cmd"] else []), some 3, interruptCount⟩
  | Sig.SIGHUP =>
    ⟨runningCmds cmds ++ (if cmd = some true then ["cmd"] else []), some 3, interruptCount⟩

/-! ## Spec-side definitions for the refinement claim on queryForSourceFiles -/

/-- Modelled from the spec: an entry is kept when it has type source file
and its label begins neither with "@" nor with "//external". -/
def specKeeps (t : QTarget) : Bool :=
  match t.type with
  | TargetType.SOURCE_FILE => !strStarts t.name "@" && !strStarts t.name "//external"
  | _ => false

/-- Modelled from the spec: the kept label is rewritten by stripping a
leading "//", replacing the first ":" with the path separator, and joining
with the workspace root. -/
def specRewriteLabel (workspaceRoot label : String) : String :=
  filepathJoin workspaceRoot (replaceFirstColon (trimSlashSlash label))

/-! ## Helper lemmas -/

theorem sourceLabelPath_spec (ws : String) (l : List QTarget) :
    l.filterMap (sourceLabelPath ws) =
      (l.filter specKeeps).map (fun t => specRewriteLabel ws t.name) := by
  induction l with
  | nil => rfl
  | cons t ts ih =>
    rw [List.filterMap_cons, List.filter_cons]
    cases ht : t.type with
    | SOURCE_FILE =>
      cases hA : strStarts t.name "@" with
      | true => simp [sourceLabelPath, ht, hA, specKeeps, ih]
      | false =>
        cases hB : strStarts t.name "//external" with
        | true => simp [sourceLabelPath, ht, hA, hB, specKeeps, ih]
        | false => simp [sourceLabelPath, ht, hA, hB, specKeeps, specRewriteLabel, ih]
    | RULE => simp [sourceLabelPath, ht, specKeeps, ih]
    | OTHER => simp [sourceLabelPath, ht, specKeeps, ih]

theorem removedDirs_of_no_dirs (l : List String) :
    l.filterMap (fun file =>
      let parentDirectory := (filepathSplit file).1
      if ([] : List String).contains parentDirectory then none else some parentDirectory) =
      l.map (fun f => (filepathSplit f).1) := by
  induction l with
  | nil => rfl
  | cons a t ih =>
    simp only [List.filterMap_cons, List.map_cons, List.contains, List.elem_nil,
      if_neg Bool.false_ne_true] at ih ⊢
    rw [ih]

/-! ## Claims -/

/-- Claim C9: queryForSourceFiles keeps exactly the source-file entries whose
label begins neither with "@" nor with "//external", and maps each kept label
to the workspace root joined with the label after stripping a leading "//"
and replacing the first ":" with the path separator. -/
theorem queryForSourceFiles_filters_and_rewrites (env : WatchEnv) :
    (queryForSourceFiles env).toWatch =
      (env.queryRes.filter specKeeps).map (fun t => specRewriteLabel env.workspacePath t.name) :=
  sourceLabelPath_spec env.workspacePath env.queryRes

/-- Claim C3 (code bug): queryForSourceFiles never returns a non-nil error —
the Query error is dropped (only logged, self-signaling SIGTERM) and the
function ends with `return toWatch, nil` — so the fail-soft guard of
watchFiles is dead and, on a failing query with an empty accompanying
result, the reconciliation removes the previously watched directory and
replaces the watch set with the empty set instead of keeping it. -/
theorem query_failure_still_reconciles :
    (∀ env : WatchEnv, (queryForSourceFiles env).err = false) ∧
    (queryForSourceFiles ⟨[], true, "/ws", false, [], []⟩).termSignaled = true ∧
    watchFiles ⟨[], true, "/ws", false, [], []⟩ ["/ws/a/f.txt"] =
      ⟨[], [], ["/ws/a/"], true, true⟩ ∧
    (["/ws/a/f.txt"] : List String) ≠ ([] : List String) :=
  ⟨fun _ => rfl, rfl, rfl, by decide⟩

/-- Claim C10: when the rule query yields no RULE-typed result, queryRule
returns a nil rule together with an error, and setupRun reaches the
dereference of that nil rule (the for-range over rule.Attribute), modelled
as Except.error: the logging-only error branch does not make the use of the
rule unreachable. -/
theorem setupRun_nil_rule_deref_reachable :
    queryRule [] = (none, true) ∧
    queryRule [CQTarget.mk TargetType.SOURCE_FILE (Rule.mk [])] = (none, true) ∧
    setupRun (queryRule []).1 (queryRule []).2 = Except.error () :=
  ⟨rfl, rfl, rfl⟩

/-- Claim C8 as amended: a successful query with an empty result triggers
the visible warning, but the reconciliation still proceeds: nothing is
added, every previously watched parent directory is passed to Remove, and
the watch set is replaced by the empty set. -/
theorem empty_query_warns_and_reconciles :
    ∀ (env : WatchEnv) (prev : List String), env.queryRes = [] →
      (watchFiles env prev).emptyWarning = true ∧
      (watchFiles env prev).filesWatched = [] ∧
      (watchFiles env prev).addedDirs = [] ∧
      (watchFiles env prev).removedDirs = prev.map (fun f => (filepathSplit f).1) := by
  intro env prev h
  obtain ⟨qr, qe, ws, we, ex, af⟩ := env
  simp only at h
  subst h
  exact ⟨rfl, rfl, rfl, removedDirs_of_no_dirs prev⟩

/-- Witness for the amended C8 theorem at a concrete environment. -/
theorem empty_query_warns_and_reconciles_witness :
    (watchFiles ⟨[], false, "/ws", false, [], []⟩ ["/ws/a/f.txt"]).emptyWarning = true ∧
    (watchFiles ⟨[], false, "/ws", false, [], []⟩ ["/ws/a/f.txt"]).filesWatched = [] ∧
    (watchFiles ⟨[], false, "/ws", false, [], []⟩ ["/ws/a/f.txt"]).addedDirs = [] ∧
    (watchFiles ⟨[], false, "/ws", false, [], []⟩ ["/ws/a/f.txt"]).removedDirs =
      (["/ws/a/f.txt"] : List String).map (fun f => (filepathSplit f).1) :=
  empty_query_warns_and_reconciles ⟨[], false, "/ws", false, [], []⟩ ["/ws/a/f.txt"] rfl

/-- Counterexample to claim C8 as stated: on a successful empty query
result with previous watch set {/ws/a/f.txt}, the code does reconcile — the
parent directory /ws/a/ is removed from the watcher and the watch set
becomes empty rather than staying unchanged. -/
theorem empty_query_clears_watchset_cex :
    watchFiles ⟨[], false, "/ws", false, [], []⟩ ["/ws/a/f.txt"] =
      ⟨[], [], ["/ws/a/"], true, false⟩ ∧
    (["/ws/a/"] : List String) ≠ [] ∧ (([] : List String) ≠ ["/ws/a/f.txt"]) :=
  ⟨rfl, by decide, by decide⟩

/-- Claim C1: one single-target iteration behaves exactly as the spec
table. In QUERY the engine reconciles both watchers and moves to RUN; in
RUN it emits beforeCommand, invokes the build-tool operation, emits
afterCommand with success iff the error is nil, and moves to WAIT; in WAIT
a modifying event on a watched source / build file emits
changeDetected(targets, "source" / "graph", name) and moves to
DEBOUNCE_RUN / DEBOUNCE_QUERY; the debounce states re-emit changeDetected
and stay on a further in-class modifying event on a watched file, and move
to RUN / QUERY when the debounce timer (default 100 ms) fires. -/
theorem iteration_matches_spec_table :
    (∀ (env : IterEnv) (command : String) (targets s b : List String) (inp : IterInput),
      iteration env command targets ⟨State.QUERY, s, b⟩ inp =
        (⟨State.RUN, (watchFiles env.src s).filesWatched,
          (watchFiles env.bld b).filesWatched⟩, [])) ∧
    (∀ (env : IterEnv) (command : String) (targets s b : List String) (inp : IterInput),
      iteration env command targets ⟨State.RUN, s, b⟩ inp =
        (⟨State.WAIT, s, b⟩,
         [Emit.beforeCommand targets command, Emit.afterCommand targets command (!env.cmdErr)])) ∧
    (∀ (env : IterEnv) (command : String) (targets s b : List String) (e : FsEvent),
      s.contains e.name = true → hasModifyingOp e.op = true →
      iteration env command targets ⟨State.WAIT, s, b⟩ (IterInput.srcEvent e) =
        (⟨State.DEBOUNCE_RUN, s, b⟩, [Emit.changeDetected targets "source" e.name])) ∧
    (∀ (env : IterEnv) (command : String) (targets s b : List String) (e : FsEvent),
      b.contains e.name = true → hasModifyingOp e.op = true →
      iteration env command targets ⟨State.WAIT, s, b⟩ (IterInput.bldEvent e) =
        (⟨State.DEBOUNCE_QUERY, s, b⟩, [Emit.changeDetected targets "graph" e.name])) ∧
    (∀ (env : IterEnv) (command : String) (targets s b : List String) (e : FsEvent),
      s.contains e.name = true → hasModifyingOp e.op = true →
      iteration env command targets ⟨State.DEBOUNCE_RUN, s, b⟩ (IterInput.srcEvent e) =
        (⟨State.DEBOUNCE_RUN, s, b⟩, [Emit.changeDetected targets "source" e.name])) ∧
    (∀ (env : IterEnv) (command : String) (targets s b : List String),
      iteration env command targets ⟨State.DEBOUNCE_RUN, s, b⟩ IterInput.timeout =
        (⟨State.RUN, s, b⟩, [])) ∧
    (∀ (env : IterEnv) (command : String) (targets s b : List String) (e : FsEvent),
      b.contains e.name = true → hasModifyingOp e.op = true →
      iteration env command targets ⟨State.DEBOUNCE_QUERY, s, b⟩ (IterInput.bldEvent e) =
        (⟨State.DEBOUNCE_QUERY, s, b⟩, [Emit.changeDetected targets "graph" e.name])) ∧
    (∀ (env : IterEnv) (command : String) (targets s b : List String),
      iteration env command targets ⟨State.DEBOUNCE_QUERY, s, b⟩ IterInput.timeout =
        (⟨State.QUERY, s, b⟩, [])) ∧
    debounceDurationDefaultMs = 100 := by
  refine ⟨?_, ?_, ?_, ?_, ?_, ?_, ?_, ?_, rfl⟩
  · intro env command targets s b inp; cases inp <;> rfl
  · intro env command targets s b inp; cases inp <;> rfl
  · intro env command targets s b e h1 h2
    have h1m : e.name ∈ s := by simpa using h1
    simp [iteration, h1m, h2]
  · intro env command targets s b e h1 h2
    have h1m : e.name ∈ b := by simpa using h1
    simp [iteration, h1m, h2]
  · intro env command targets s b e h1 h2
    have h1m : e.name ∈ s := by simpa using h1
    simp [iteration, h1m, h2]
  · intro env command targets s b; rfl
  · intro env command targets s b e h1 h2
    have h1m : e.name ∈ b := by simpa using h1
    simp [iteration, h1m, h2]
  · intro env command targets s b; rfl

/-- Witness for the C1 table at concrete inputs: a watched modifying source
event in WAIT, and the debounce timer firing in DEBOUNCE_RUN. -/
theorem iteration_matches_spec_table_witness :
    iteration ⟨⟨[], false, "/ws", false, [], []⟩, ⟨[], false, "/ws", false, [], []⟩, false⟩
        "build" ["//a"] ⟨State.WAIT, ["/ws/a/f"], []⟩ (IterInput.srcEvent ⟨"/ws/a/f", 2⟩) =
      (⟨State.DEBOUNCE_RUN, ["/ws/a/f"], []⟩, [Emit.changeDetected ["//a"] "source" "/ws/a/f"]) ∧
    iteration ⟨⟨[], false, "/ws", false, [], []⟩, ⟨[], false, "/ws", false, [], []⟩, false⟩
        "build" ["//a"] ⟨State.DEBOUNCE_RUN, ["/ws/a/f"], []⟩ IterInput.timeout =
      (⟨State.RUN, ["/ws/a/f"], []⟩, []) :=
  ⟨iteration_matches_spec_table.2.2.1
      ⟨⟨[], false, "/ws", false, [], []⟩, ⟨[], false, "/ws", false, [], []⟩, false⟩
      "build" ["//a"] ["/ws/a/f"] [] ⟨"/ws/a/f", 2⟩ (by decide) (by decide),
   iteration_matches_spec_table.2.2.2.2.2.1
      ⟨⟨[], false, "/ws", false, [], []⟩, ⟨[], false, "/ws", false, [], []⟩, false⟩
      "build" ["//a"] ["/ws/a/f"] []⟩

/-- A concrete multi-target environment: empty query answers, a healthy
workspace, a succeeding build, one RULE result per cquery, no Start errors. -/
def cMEnv : MEnv :=
  ⟨fun _ => [], fun _ => [], "/ws", [], [], false,
   fun _ => [CQTarget.mk TargetType.RULE (Rule.mk [])], fun _ => false⟩

/-- Claim C2 as amended: an event whose name is not in the watch set of its
originating watcher emits no changeDetected and never changes the state
value; in WAIT (both modes) the engine is unchanged entirely. In the
debounce states, however, the arrival of the event re-enters the select and
so re-arms the debounce timer, and in multi-target mode it overwrites
prevDir with the directory of the event name. -/
theorem unwatched_event_ignored_amended :
    (∀ (env : IterEnv) (command : String) (targets s b : List String) (e : FsEvent),
      s.contains e.name = false →
      iteration env command targets ⟨State.WAIT, s, b⟩ (IterInput.srcEvent e) =
        (⟨State.WAIT, s, b⟩, [])) ∧
    (∀ (env : IterEnv) (command : String) (targets s b : List String) (e : FsEvent),
      b.contains e.name = false →
      iteration env command targets ⟨State.WAIT, s, b⟩ (IterInput.bldEvent e) =
        (⟨State.WAIT, s, b⟩, [])) ∧
    (∀ (env : IterEnv) (command : String) (targets s b : List String) (e : FsEvent),
      s.contains e.name = false →
      iteration env command targets ⟨State.DEBOUNCE_RUN, s, b⟩ (IterInput.srcEvent e) =
        (⟨State.DEBOUNCE_RUN, s, b⟩, [])) ∧
    (∀ (env : IterEnv) (command : String) (targets s b : List String) (e : FsEvent),
      b.contains e.name = false →
      iteration env command targets ⟨State.DEBOUNCE_QUERY, s, b⟩ (IterInput.bldEvent e) =
        (⟨State.DEBOUNCE_QUERY, s, b⟩, [])) ∧
    (∀ (env : MEnv) (command : String) (targets : List String) (eng : MEngine) (e : FsEvent),
      eng.state = State.WAIT → eng.srcWatched.contains e.name = false →
      iterationMultiple env command targets eng (IterInput.srcEvent e) =
        Except.ok ⟨eng, [], [], []⟩) ∧
    (∀ (env : MEnv) (command : String) (targets : List String) (eng : MEngine) (e : FsEvent),
      eng.state = State.WAIT → eng.bldWatched.contains e.name = false →
      iterationMultiple env command targets eng (IterInput.bldEvent e) =
        Except.ok ⟨eng, [], [], []⟩) ∧
    (∀ (env : MEnv) (command : String) (targets : List String) (eng : MEngine) (e : FsEvent),
      eng.state = State.DEBOUNCE_RUN → eng.srcWatched.contains e.name = false →
      iterationMultiple env command targets eng (IterInput.srcEvent e) =
        Except.ok ⟨{ eng with prevDir := (filepathSplit e.name).1 }, [], [], []⟩) ∧
    (∀ (env : MEnv) (command : String) (targets : List String) (eng : MEngine) (e : FsEvent),
      eng.state = State.DEBOUNCE_QUERY → eng.bldWatched.contains e.name = false →
      iterationMultiple env command targets eng (IterInput.bldEvent e) =
        Except.ok ⟨{ eng with prevDir := (filepathSplit e.name).1 }, [], [], []⟩) := by
  refine ⟨?_, ?_, ?_, ?_, ?_, ?_, ?_, ?_⟩
  · intro env command targets s b e h
    have hm : e.name ∉ s := by simpa using h
    simp [iteration, hm]
  · intro env command targets s b e h
    have hm : e.name ∉ b := by simpa using h
    simp [iteration, hm]
  · intro env command targets s b e h
    have hm : e.name ∉ s := by simpa using h
    simp [iteration, hm]
  · intro env command targets s b e h
    have hm : e.name ∉ b := by simpa using h
    simp [iteration, hm]
  · intro env command targets eng e h1 h2
    obtain ⟨st, sw, bw, pd, fb, cp, sd, bd⟩ := eng
    simp only at h1 h2
    subst h1
    have hm : e.name ∉ sw := by simpa using h2
    simp [iterationMultiple, hm]
  · intro env command targets eng e h1 h2
    obtain ⟨st, sw, bw, pd, fb, cp, sd, bd⟩ := eng
    simp only at h1 h2
    subst h1
    have hm : e.name ∉ bw := by simpa using h2
    simp [iterationMultiple, hm]
  · intro env command targets eng e h1 h2
    obtain ⟨st, sw, bw, pd, fb, cp, sd, bd⟩ := eng
    simp only at h1 h2
    subst h1
    have hm : e.name ∉ sw := by simpa using h2
    simp [iterationMultiple, hm]
  · intro env command targets eng e h1 h2
    obtain ⟨st, sw, bw, pd, fb, cp, sd, bd⟩ := eng
    simp only at h1 h2
    subst h1
    have hm : e.name ∉ bw := by simpa using h2
    simp [iterationMultiple, hm]

/-- Witness for the amended C2 theorem: an unwatched source event during
multi-target DEBOUNCE_RUN emits nothing, keeps the state value, and sets
prevDir to the directory of the event name. -/
theorem unwatched_event_ignored_amended_witness :
    iterationMultiple cMEnv "run" ["//t"]
        ⟨State.DEBOUNCE_RUN, [], [], "", false, false, [], []⟩
        (IterInput.srcEvent ⟨"/ws/b/f", 2⟩) =
      Except.ok ⟨{ (⟨State.DEBOUNCE_RUN, [], [], "", false, false, [], []⟩ : MEngine) with
        prevDir := (filepathSplit "/ws/b/f").1 }, [], [], []⟩ :=
  unwatched_event_ignored_amended.2.2.2.2.2.2.1 cMEnv "run" ["//t"]
    ⟨State.DEBOUNCE_RUN, [], [], "", false, false, [], []⟩ ⟨"/ws/b/f", 2⟩ rfl rfl

/-- Counterexample to claim C2 as stated: in multi-target DEBOUNCE_QUERY an
event on an unwatched file does change the observable engine state — it
overwrites prevDir with the directory of the event name. -/
theorem unwatched_event_sets_prevDir_cex :
    iterationMultiple cMEnv "build" ["//t"]
        ⟨State.DEBOUNCE_QUERY, [], ["/ws/a"], "", false, false, [], []⟩
        (IterInput.bldEvent ⟨"/ws/b/f", 2⟩) =
      Except.ok ⟨⟨State.DEBOUNCE_QUERY, [], ["/ws/a"], "/ws/b/", false, false, [], []⟩,
        [], [], []⟩ ∧
    (["/ws/a"] : List String).contains "/ws/b/f" = false ∧
    ("/ws/b/" : String) ≠ "" :=
  ⟨rfl, rfl, by decide⟩

/-- Claim C4 as amended: on a first or second handled Interrupt, every
running managed subprocess is terminated, but the exit decision only
consults the single-target handle: the process keeps running iff cmd is
non-nil with a running subprocess; when cmd is nil or idle it exits with
code 3 even if multi-target subprocesses were running. -/
theorem sigint_exit_iff_cmd_running :
    ∀ (cmds : List (String × Bool)) (cmd : Option Bool) (interruptCount : Nat),
      interruptCount ≤ 1 →
      (((handleSignals Sig.SIGINT cmds cmd interruptCount).exit = none) ↔ cmd = some true) ∧
      (∀ n, (n, true) ∈ cmds →
        n ∈ (handleSignals Sig.SIGINT cmds cmd interruptCount).terminated) ∧
      (cmd = some true → "cmd" ∈ (handleSignals Sig.SIGINT cmds cmd interruptCount).terminated) := by
  intro cmds cmd c hc
  have hmem : ∀ n, (n, true) ∈ cmds → n ∈ runningCmds cmds := by
    intro n hn
    simp only [runningCmds, List.mem_map, List.mem_filter]
    exact ⟨(n, true), ⟨hn, rfl⟩, rfl⟩
  by_cases h : cmd = some true
  · have hlt : ¬ (c + 1 > 2) := by omega
    refine ⟨?_, ?_, ?_⟩
    · simp [handleSignals, h, hlt]
    · intro n hn
      simp only [handleSignals, h, if_pos]
      exact List.mem_append_left _ (hmem n hn)
    · intro _
      simp only [handleSignals, h, if_pos]
      exact List.mem_append_right _ (by simp)
  · refine ⟨?_, ?_, ?_⟩
    · simp [handleSignals, h]
    · intro n hn
      simp only [handleSignals, h, if_neg]
      exact hmem n hn
    · intro hcontra
      exact absurd hcontra h

/-- Witness for the amended C4 theorem: first Interrupt with a running
multi-target handle and a running single-target cmd — no exit, both
terminated. -/
theorem sigint_exit_iff_cmd_running_witness :
    (((handleSignals Sig.SIGINT [("t1", true)] (some true) 0).exit = none) ↔
      (some true : Option Bool) = some true) ∧
    (∀ n, (n, true) ∈ [(("t1" : String), true)] →
      n ∈ (handleSignals Sig.SIGINT [("t1", true)] (some true) 0).terminated) ∧
    ((some true : Option Bool) = some true →
      "cmd" ∈ (handleSignals Sig.SIGINT [("t1", true)] (some true) 0).terminated) :=
  sigint_exit_iff_cmd_running [("t1", true)] (some true) 0 (by decide)

/-- Counterexample to claim C4 as stated: a first Interrupt with a running
multi-target subprocess but a nil single-target cmd exits with code 3 even
though a managed subprocess was running. -/
theorem sigint_exits_despite_running_cmds_cex :
    handleSignals Sig.SIGINT [("t1", true)] none 0 = ⟨["t1"], some 3, 0⟩ ∧
    (("t1", true) ∈ [(("t1" : String), true)]) ∧ ((some 3 : Option Nat) ≠ none) :=
  ⟨rfl, by decide, by decide⟩

/-- Claim C7 as amended: only a handled Interrupt that does not exit
immediately (cmd running) increments the interrupt counter, and it does so
exactly once; Terminate and Hangup exit with code 3 before reaching the
increment, leaving the counter unchanged; after any handled signal, a
counter value above 2 implies exit with code 3. -/
theorem signal_counter_amended :
    (∀ (cmds : List (String × Bool)) (interruptCount : Nat),
      (handleSignals Sig.SIGINT cmds (some true) interruptCount).interruptCount =
        interruptCount + 1) ∧
    (∀ (cmds : List (String × Bool)) (cmd : Option Bool) (interruptCount : Nat),
      (handleSignals Sig.SIGTERM cmds cmd interruptCount).interruptCount = interruptCount ∧
      (handleSignals Sig.SIGHUP cmds cmd interruptCount).interruptCount = interruptCount) ∧
    (∀ (sig : Sig) (cmds : List (String × Bool)) (cmd : Option Bool) (interruptCount : Nat),
      (handleSignals sig cmds cmd interruptCount).interruptCount > 2 →
      (handleSignals sig cmds cmd interruptCount).exit = some 3) := by
  refine ⟨?_, ?_, ?_⟩
  · intro cmds c; simp [handleSignals]
  · intro cmds cmd c; exact ⟨rfl, rfl⟩
  · intro sig cmds cmd c h
    cases sig with
    | SIGINT =>
      by_cases hcm : cmd = some true
      · simp only [handleSignals, if_pos hcm] at h ⊢
        simp only [if_pos h]
      · simp [handleSignals, hcm]
    | SIGTERM => rfl
    | SIGHUP => rfl

/-- Witness for the amended C7 theorem: a third Interrupt with a running
cmd drives the counter to 3 and exits with code 3. -/
theorem signal_counter_amended_witness :
    (handleSignals Sig.SIGINT [] (some true) 2).exit = some 3 :=
  signal_counter_amended.2.2 Sig.SIGINT [] (some true) 2 (by decide)

/-- Counterexample to claim C7 as stated: a handled Terminate does not
increment the interrupt counter (it exits before the increment). -/
theorem sigterm_does_not_increment_cex :
    handleSignals Sig.SIGTERM [] none 0 = ⟨[], some 3, 0⟩ ∧ (0 : Nat) ≠ 0 + 1 :=
  ⟨rfl, by decide⟩

/-- Claim C5 (code bug): in the multi-target QUERY state the branch that
should restrict the re-query to the targets of prevDir declares a shadowed
toQuery and discards it, so all targets are always re-queried, even when
prevDir is set and the target-directory map associates it with a strict
subset; prevDir is cleared on leaving QUERY as claimed. -/
theorem query_prevDir_targets_shadowed :
    (∀ (prevDir : String) (m : List (String × List String)) (targets : List String),
      toQueryOf prevDir m targets = targets) ∧
    iterationMultiple cMEnv "build" ["//t1", "//t2"]
        ⟨State.QUERY, [], [], "/ws/a/", false, false, [], [("/ws/a/", ["//t1"])]⟩
        IterInput.timeout =
      Except.ok ⟨⟨State.RUN, [], [], "", false, false, [], []⟩, [], ["//t1", "//t2"], []⟩ ∧
    lookupD [("/ws/a/", ["//t1"])] "/ws/a/" [] = ["//t1"] ∧
    (["//t1", "//t2"] : List String) ≠ ["//t1"] :=
  ⟨fun _ _ _ => rfl, rfl, rfl, by decide⟩

theorem runMultiple_emits (env : MEnv) (cmdsPresent firstBuildPassed : Bool)
    (targets : List String) (r : RunOut)
    (h : runMultiple env cmdsPresent firstBuildPassed targets = Except.ok r) :
    r.emits = [Emit.afterCommand targets "build" (!env.buildErr)] := by
  unfold runMultiple at h
  by_cases hb : env.buildErr
  · rw [if_pos hb] at h
    cases h
    rfl
  · rw [if_neg hb] at h
    cases hcp : cmdsPresent with
    | true =>
      rw [hcp] at h
      simp only [Bool.not_true, if_neg Bool.false_ne_true] at h
      cases h
      rfl
    | false =>
      rw [hcp] at h
      simp only [Bool.not_false, if_pos] at h
      cases hs : startCmds env targets with
      | error e => rw [hs] at h; simp at h
      | ok p =>
        rw [hs] at h
        cases h
        rfl

/-- Claim C6 as amended: a single-target RUN entry emits exactly one
beforeCommand / afterCommand pair, in that order; a multi-target RUN entry
emits exactly one beforeCommand first, then the afterCommand of the
internal build step, then one further afterCommand per returned output
buffer. -/
theorem run_lifecycle_pair_amended :
    (∀ (env : IterEnv) (command : String) (targets s b : List String) (inp : IterInput),
      iteration env command targets ⟨State.RUN, s, b⟩ inp =
        (⟨State.WAIT, s, b⟩,
         [Emit.beforeCommand targets command, Emit.afterCommand targets command (!env.cmdErr)])) ∧
    (∀ (env : MEnv) (command : String) (targets : List String) (eng : MEngine)
        (inp : IterInput) (o : MOut),
      eng.state = State.RUN →
      iterationMultiple env command targets eng inp = Except.ok o →
      ∃ (tr : List String) (s : Bool),
        o.emits = Emit.beforeCommand tr command ::
          Emit.afterCommand tr "build" (!env.buildErr) ::
          o.buffers.map (fun _ => Emit.afterCommand tr command s)) := by
  constructor
  · intro env command targets s b inp; cases inp <;> rfl
  · intro env command targets eng inp o h1 h2
    obtain ⟨st, sw, bw, pd, fb, cp, sd, bd⟩ := eng
    simp only at h1
    subst h1
    simp only [iterationMultiple] at h2
    cases hr : runMultiple env cp fb
        (multiTorun ⟨State.RUN, sw, bw, pd, fb, cp, sd, bd⟩ targets) with
    | error e => rw [hr] at h2; simp at h2
    | ok r =>
      rw [hr] at h2
      cases h2
      refine ⟨multiTorun ⟨State.RUN, sw, bw, pd, fb, cp, sd, bd⟩ targets, !r.errOut, ?_⟩
      rw [runMultiple_emits env cp fb _ r hr]
      rfl

/-- The outcome of the concrete first-pass multi-target RUN entry used by
the C6 witness and counterexample: two targets, healthy environment. -/
def cMOut6 : MOut :=
  ⟨⟨State.WAIT, [], [], "", true, true, [], []⟩,
   [Emit.beforeCommand ["//t1", "//t2"] "run",
    Emit.afterCommand ["//t1", "//t2"] "build" true,
    Emit.afterCommand ["//t1", "//t2"] "run" true,
    Emit.afterCommand ["//t1", "//t2"] "run" true], [], [(), ()]⟩

/-- Witness for the amended C6 theorem at the concrete two-target RUN entry. -/
theorem run_lifecycle_pair_amended_witness :
    ∃ (tr : List String) (s : Bool),
      cMOut6.emits = Emit.beforeCommand tr "run" ::
        Emit.afterCommand tr "build" (!cMEnv.buildErr) ::
        cMOut6.buffers.map (fun _ => Emit.afterCommand tr "run" s) :=
  run_lifecycle_pair_amended.2 cMEnv "run" ["//t1", "//t2"]
    ⟨State.RUN, [], [], "", false, false, [], []⟩ IterInput.timeout cMOut6 rfl rfl

/-- Counterexample to claim C6 as stated: a first-pass multi-target RUN
entry with two targets emits three afterCommand calls (one for the internal
build step plus one per output buffer), not exactly one. -/
theorem multi_run_three_afterCommands_cex :
    iterationMultiple cMEnv "run" ["//t1", "//t2"]
        ⟨State.RUN, [], [], "", false, false, [], []⟩ IterInput.timeout =
      Except.ok cMOut6 ∧
    List.countP isAfterCommandE cMOut6.emits = 3 ∧
    List.countP isBeforeCommandE cMOut6.emits = 1 ∧
    (3 : Nat) ≠ 1 :=
  ⟨rfl, by decide, by decide, by decide⟩

end Ibazel
